import Mathlib

/-!
Verification of the attendance-session controller of the Smart Attendance
System (`backend/recognize_attendance.py`), against its natural-language
specification.

The module is a single script: a startup phase (argument parsing, model and
cascade loading, roster construction, class filtering), a camera loop that
samples every Nth frame, classifies each detection, enqueues accepted
attendance rows, and periodically batch-writes them to the attendance CSV,
with a final batch write in the `finally` block.

This file shallowly embeds that script:
- pure I/O (printing, drawing rectangles, window display, FPS sleep) is
  omitted; it reads no state that matters to the properties below except
  `last_detection_results`, which we keep in the state;
- the attendance CSV is modelled as the list of rows appended during this
  session (the file is append-only; the pre-existing content and header row
  are untouched by the session logic);
- `datetime.now()` strings are supplied by each frame input;
- the recognizer (`recognizer.predict`) is modelled as the list of
  (label, confidence) pairs a frame's face detection yields; a face on which
  `predict` raises is dropped by the source (`except: continue`) and is thus
  simply absent from that list; confidence is modelled as a rational number;
- a `writerow` or `open` failure in `batch_write_attendance` is modelled by
  an explicit failure-mode parameter, since the Python exception can strike
  at any point of the drain loop.
-/

namespace Attendance

/-- A student-directory record, mirroring a JSON object from
`student_database.json`. Python dict `.get` may find a key absent, so every
field is an `Option`. -/
structure StudentInfo where
  name : Option String
  rollNo : Option String
  branch : Option String
  sec : Option String
deriving DecidableEq

/-- The empty Python dict `{}` used as the default of `name_to_info.get(name, {})`. -/
def emptyInfo : StudentInfo := ⟨none, none, none, none⟩

/-- The placeholder record bound to a dataset identity with no directory
match (source lines 114-119). -/
def unknownInfo : StudentInfo := ⟨none, some "N/A", some "UNKNOWN", some "UNKNOWN"⟩

/-- One row of the attendance CSV: `[name, roll_no, branch, section, date_str, time_str]`
(source line 260). -/
structure AttendanceRow where
  name : String
  rollNo : String
  branch : String
  sec : String
  date : String
  time : String
deriving DecidableEq

/-- Association-list lookup, modelling Python dict indexing / `.get`. -/
def lookupA {κ α : Type} [BEq κ] (l : List (κ × α)) (k : κ) : Option α :=
  (l.find? (fun p => p.1 == k)).map (·.2)

/-! ### Roster resolution (`name_to_info`, source lines 96-121) -/

/-- Python `str.lower()`, character by character. (Lean core's
`String.toLower` is equivalent but does not reduce in the kernel.) -/
def pyLower (s : String) : String := ⟨s.data.map Char.toLower⟩

/-- Python `str.upper()`, character by character. -/
def pyUpper (s : String) : String := ⟨s.data.map Char.toUpper⟩

/-- Python `str.replace(" ", "_")`: for a one-character pattern this is a
character-by-character substitution. -/
def replaceSpaces (s : String) : String :=
  ⟨s.data.map (fun c => if c = ' ' then '_' else c)⟩

/-- The directory key derived from a dataset identity label:
`person_name.lower().replace(" ", "_")` (source line 102). -/
def derivedKey (personName : String) : String :=
  replaceSpaces (pyLower personName)

/-- Exact match of the derived key against the student directory
(source line 103). -/
def lookupKey (db : List (String × StudentInfo)) (k : String) : Option StudentInfo :=
  lookupA db k

/-- Case-insensitive search by the record's `name` field, first directory
entry wins (source lines 107-112): `info.get('name', '').lower() == person_name.lower()`. -/
def findByName (db : List (String × StudentInfo)) (personName : String) : Option StudentInfo :=
  (db.find? (fun p => pyLower (p.2.name.getD "") == pyLower personName)).map (·.2)

/-- Resolution of one identity label against the student directory
(source lines 102-119): derived-key match, then case-insensitive name
match, then the unknown placeholder. -/
def resolveStudent (db : List (String × StudentInfo)) (personName : String) : StudentInfo :=
  match lookupKey db (derivedKey personName) with
  | some info => info
  | none =>
    match findByName db personName with
    | some info => info
    | none => unknownInfo

/-- The label map built from the dataset folder enumeration: label ids
`0, 1, ...` in folder order (source lines 96-99, 121). -/
def buildLabelMap (folders : List String) : List (Nat × String) :=
  folders.enum

/-- The `name_to_info` dict built over the dataset folders (source lines
96-121); keys are folder names, which are unique on a filesystem. -/
def buildNameToInfo (folders : List String) (db : List (String × StudentInfo)) :
    List (String × StudentInfo) :=
  folders.map (fun n => (n, resolveStudent db n))

/-- The class filter (source lines 126-129):
`info.get('branch') == branch and info.get('section') == section`.
A missing key gives Python `None`, which is never equal to a string, hence
the `some` comparisons. -/
def classStudents (nameToInfo : List (String × StudentInfo)) (branch sec : String) :
    List (String × StudentInfo) :=
  nameToInfo.filter (fun p => p.2.branch == some branch && p.2.sec == some sec)

/-! ### Batched persistence (`batch_write_attendance`, source lines 28-39) -/

/-- Failure injection for one flush call: `ok` is the exception-free path,
`openFail` makes `open` raise before any row is dequeued, `writeFail k`
makes the `k`-th `writer.writerow` call of this flush raise (0-based), after
the row has already been popped from the deque. -/
inductive FailMode where
  | ok
  | openFail
  | writeFail (k : Nat)
deriving DecidableEq

/-- Result of one `batch_write_attendance` call: the remaining in-memory
queue, the log (rows appended to the CSV so far), and how many times the
file was opened for writing (0 or 1 — the source never retries). -/
structure FlushResult where
  queue : List AttendanceRow
  log : List AttendanceRow
  opens : Nat
deriving DecidableEq

/-- The drain loop `while queue: writer.writerow(queue.popleft())` on the
exception-free path. -/
def drainAll : List AttendanceRow → List AttendanceRow → List AttendanceRow × List AttendanceRow
  | [], log => ([], log)
  | r :: rest, log => drainAll rest (log ++ [r])

/-- The drain loop when the `k`-th `writerow` raises: rows before `k` are
written, the row being written is already popped and is lost, the rest stay
queued. -/
def drainUntil : Nat → List AttendanceRow → List AttendanceRow →
    List AttendanceRow × List AttendanceRow
  | _, [], log => ([], log)
  | 0, _ :: rest, log => (rest, log)
  | k + 1, r :: rest, log => drainUntil k rest (log ++ [r])

/-- `batch_write_attendance(queue, filename)` (source lines 28-39): returns
immediately on an empty queue without opening the file; otherwise opens the
file once and drains the queue, catching any exception (which is only
printed — there is no retry). -/
def batch_write_attendance (m : FailMode) (queue log : List AttendanceRow) : FlushResult :=
  if queue.isEmpty then ⟨queue, log, 0⟩
  else
    match m with
    | .ok => let p := drainAll queue log; ⟨p.1, p.2, 1⟩
    | .openFail => ⟨queue, log, 1⟩
    | .writeFail k => let p := drainUntil k queue log; ⟨p.1, p.2, 1⟩

/-! ### The session loop (source lines 144-343) -/

/-- Configuration values the loop reads. The source hard-codes
`process_every_n_frames = 2` (line 180) and `Config.BATCH_WRITE_INTERVAL = 10`,
`Config.RECOGNITION_CONFIDENCE_THRESHOLD = 75` (config.py); we keep them as
parameters so the properties can be stated for any interval, and pin the
source's values in `sourceConfig`. -/
structure Cfg where
  threshold : ℚ
  processEveryN : Nat
  batchWriteInterval : Nat
deriving DecidableEq

/-- The values the source actually runs with. -/
def sourceConfig : Cfg := ⟨75, 2, 10⟩

/-- The immutable per-session roster context: target class plus the label
map and `name_to_info` built at startup. -/
structure RosterCtx where
  branch : String
  sec : String
  labelMap : List (Nat × String)
  nameToInfo : List (String × StudentInfo)
deriving DecidableEq

/-- One recognizer outcome for one detected face: `recognizer.predict`
returns a label id and a distance-style confidence (source line 219). -/
structure Detection where
  label : Nat
  confidence : ℚ
deriving DecidableEq

/-- The `result['status']` field (source lines 228, 245, 270). -/
inductive Status where
  | unknown
  | correct_class
  | wrong_class
deriving DecidableEq

/-- The per-detection result dict (source lines 223-230 and updates). -/
structure DetResult where
  name : String
  rollNo : String
  color : Nat × Nat × Nat
  status : Status
  confidence : ℚ
  marked : Bool
  correctClass : Option String
deriving DecidableEq

/-- Mutable session state: `frame_count`, `marked_names`,
`recognition_cooldown`, `attendance_queue`, `last_detection_results`, plus
the rows this session appended to the CSV and a count of the frames on
which the recognition capability was invoked. `marked` models the Python
set as a duplicate-free list (newest first); `cooldown` models the dict as
an association list (newest binding first). -/
structure LoopState where
  frameCount : Nat
  recogCalls : Nat
  marked : List String
  cooldown : List (String × String)
  queue : List AttendanceRow
  log : List AttendanceRow
  lastResults : List DetResult
deriving DecidableEq

/-- State at session start (source lines 144-147, 181). -/
def initState : LoopState := ⟨0, 0, [], [], [], [], []⟩

/-- The name a detection resolves to: `label_map.get(label, "Unknown")`
(source line 233). -/
def detName (ctx : RosterCtx) (d : Detection) : String :=
  (lookupA ctx.labelMap d.label).getD "Unknown"

/-- The record a detection resolves to: `name_to_info.get(name, {})`
(source line 234). -/
def detInfo (ctx : RosterCtx) (d : Detection) : StudentInfo :=
  (lookupA ctx.nameToInfo (detName ctx d)).getD emptyInfo

/-- `student_info.get('rollNo', 'N/A')` (source line 235). -/
def detRollNo (ctx : RosterCtx) (d : Detection) : String :=
  (detInfo ctx d).rollNo.getD "N/A"

/-- `student_info.get('branch', 'UNKNOWN')` (source line 236). -/
def detBranch (ctx : RosterCtx) (d : Detection) : String :=
  (detInfo ctx d).branch.getD "UNKNOWN"

/-- `student_info.get('section', 'UNKNOWN')` (source line 237). -/
def detSec (ctx : RosterCtx) (d : Detection) : String :=
  (detInfo ctx d).sec.getD "UNKNOWN"

/-- Classification and marking of one detection (source lines 215-273,
minus drawing). `dateStr`/`timeStr` stand for the `datetime.now()` strings
of this tick. The cooldown value read at lines 248-251 is computed but
never used by any decision, so only the dict write at line 263 is kept. -/
def processDetection (cfg : Cfg) (ctx : RosterCtx) (dateStr timeStr : String)
    (st : LoopState) (d : Detection) : LoopState × DetResult :=
  let base : DetResult :=
    ⟨"Unknown", "", (0, 0, 255), .unknown, d.confidence, false, none⟩
  if d.confidence < cfg.threshold then
    let name := detName ctx d
    let rollNo := detRollNo ctx d
    let r1 := { base with name := name, rollNo := rollNo }
    if detBranch ctx d = ctx.branch ∧ detSec ctx d = ctx.sec then
      if name ∈ st.marked then
        (st, { r1 with color := (0, 255, 0), status := .correct_class, marked := true })
      else
        let row : AttendanceRow := ⟨name, rollNo, ctx.branch, ctx.sec, dateStr, timeStr⟩
        let st' := { st with
          queue := st.queue ++ [row],
          marked := name :: st.marked,
          cooldown := (name, timeStr) :: st.cooldown }
        (st', { r1 with color := (0, 255, 0), status := .correct_class, marked := true })
    else
      (st,
        { r1 with
          color := (0, 165, 255),
          status := .wrong_class,
          correctClass := some (detBranch ctx d ++ "-" ++ detSec ctx d) })
  else
    (st, base)

/-- The `for (x, y, w, h) in faces` loop of one processed frame (source
lines 215-273), accumulating the `last_detection_results` list. -/
def processFaces (cfg : Cfg) (ctx : RosterCtx) (dateStr timeStr : String)
    (st : LoopState) : List Detection → LoopState × List DetResult
  | [] => (st, [])
  | d :: ds =>
    let p := processDetection cfg ctx dateStr timeStr st d
    let q := processFaces cfg ctx dateStr timeStr p.1 ds
    (q.1, p.2 :: q.2)

/-- What happens on one iteration of the `while True` loop, beyond the
frame data itself: the camera read may fail (`ret == False`), the user may
have pressed Q, or an asynchronous `KeyboardInterrupt` / other exception
may strike (modelled as raised at the top of the iteration). -/
inductive FrameEvent where
  | normal
  | camFail
  | kbInterrupt
  | exn
deriving DecidableEq

/-- One frame's worth of external input to the loop. -/
structure FrameInput where
  event : FrameEvent
  faces : List Detection
  quitKey : Bool
  dateStr : String
  timeStr : String
deriving DecidableEq

/-- Why the `try` block was left (source lines 189-191, 320-322, 330-335;
`endOfStream` models the frame source running out of frames, at which point
the real camera read would fail). -/
inductive ExitCause where
  | endOfStream
  | camFail
  | quit
  | interrupted
  | errored
deriving DecidableEq

/-- Result of one loop iteration: continue, or leave the `try` block. -/
inductive StepRes where
  | cont (st : LoopState)
  | halt (st : LoopState) (c : ExitCause)
deriving DecidableEq

/-- Applies one successful periodic batch write to the state (source
line 328). -/
def applyBatchWrite (st : LoopState) : LoopState :=
  let r := batch_write_attendance .ok st.queue st.log
  { st with queue := r.queue, log := r.log }

/-- `frame_count += 1` (source line 193). -/
def bumpFrame (st : LoopState) : LoopState :=
  { st with frameCount := st.frameCount + 1 }

/-- The `should_process` gate and the face-detection pass (source lines
201-273): on every `process_every_n_frames`-th frame the recognition
capability is invoked (counted in `recogCalls`), the faces are classified,
and `last_detection_results` is replaced. -/
def detectPhase (cfg : Cfg) (ctx : RosterCtx) (f : FrameInput) (st1 : LoopState) : LoopState :=
  if st1.frameCount % cfg.processEveryN == 0 then
    let p := processFaces cfg ctx f.dateStr f.timeStr st1 f.faces
    { p.1 with recogCalls := p.1.recogCalls + 1, lastResults := p.2 }
  else st1

/-- The periodic batch write (source lines 327-328): every
`BATCH_WRITE_INTERVAL`-th frame, when the queue is non-empty. -/
def writePhase (cfg : Cfg) (st2 : LoopState) : LoopState :=
  if st2.frameCount % cfg.batchWriteInterval == 0 && !st2.queue.isEmpty then
    applyBatchWrite st2
  else st2

/-- One iteration of the `while True` loop (source lines 187-328): read
(exit on failure), bump `frame_count`, run detection on every
`process_every_n_frames`-th frame, check the quit key, then batch-write.
The quit check (line 320) precedes the periodic write (line 327), so a quit
frame skips that write. -/
def stepFrame (cfg : Cfg) (ctx : RosterCtx) (st : LoopState) (f : FrameInput) : StepRes :=
  match f.event with
  | .camFail => .halt st .camFail
  | .kbInterrupt => .halt st .interrupted
  | .exn => .halt st .errored
  | .normal =>
    let st2 := detectPhase cfg ctx f (bumpFrame st)
    if f.quitKey then .halt st2 .quit
    else .cont (writePhase cfg st2)

/-- Runs the `try` block over a list of frame inputs, returning the state
and exit cause. -/
def runLoopAux (cfg : Cfg) (ctx : RosterCtx) :
    List FrameInput → LoopState → LoopState × ExitCause
  | [], st => (st, .endOfStream)
  | f :: fs, st =>
    match stepFrame cfg ctx st f with
    | .cont st' => runLoopAux cfg ctx fs st'
    | .halt st' c => (st', c)

/-- The `finally` block (source lines 336-343): a final batch write when
the queue is non-empty, then resource release (a no-op on our state). -/
def finalizeSession (st : LoopState) : LoopState :=
  if st.queue.isEmpty then st else applyBatchWrite st

/-- A whole session: the `try` loop followed unconditionally by the
`finally` block, which Python runs on every exit path — break, caught
`KeyboardInterrupt`, and caught `Exception` alike. -/
def runSession (cfg : Cfg) (ctx : RosterCtx) (inputs : List FrameInput) :
    LoopState × ExitCause :=
  let p := runLoopAux cfg ctx inputs initState
  (finalizeSession p.1, p.2)

/-! ### Startup (source lines 42-172) -/

/-- The external conditions the startup sequence checks before the loop:
command-line arguments, trainer model file presence and loadability, the
face cascade, the dataset folder, the student directory, the dataset folder
names (only directories reach the loop at line 98, so this list holds the
directory entries), and whether the camera opens. -/
structure StartupEnv where
  argv : List String
  modelFileExists : Bool
  modelLoadOk : Bool
  cascadeOk : Bool
  datasetExists : Bool
  datasetFolders : List String
  studentDb : List (String × StudentInfo)
  camOpens : Bool
deriving DecidableEq

/-- How the script's startup phase ends: `sys.exit(1)` on a failed check,
or entry into the recognition loop. `emptyClassWarning` records whether the
warning at source lines 132-133 was printed — the script proceeds to the
loop either way. -/
inductive StartupResult where
  | exitError (reason : String)
  | running (ctx : RosterCtx) (emptyClassWarning : Bool)
deriving DecidableEq

/-- The startup sequence (source lines 47-172): argument check, model file
and load checks, cascade check, dataset check, roster construction, the
class filter with its warning-only empty check (lines 131-135), attendance
file header creation (pure I/O, omitted), and the camera-open check. -/
def startup (env : StartupEnv) : StartupResult :=
  if env.argv.length < 3 then .exitError "args"
  else
    let branch := pyUpper (env.argv.getD 1 "")
    let sec := pyUpper (env.argv.getD 2 "")
    if !env.modelFileExists then .exitError "model-missing"
    else if !env.modelLoadOk then .exitError "model-load"
    else if !env.cascadeOk then .exitError "cascade"
    else if !env.datasetExists then .exitError "dataset"
    else
      let nameToInfo := buildNameToInfo env.datasetFolders env.studentDb
      let warn := (classStudents nameToInfo branch sec).isEmpty
      if !env.camOpens then .exitError "camera"
      else .running ⟨branch, sec, buildLabelMap env.datasetFolders, nameToInfo⟩ warn

/-! ### Derived notions used in statements -/

/-- The full list of event rows a state has ever enqueued: rows already in
the log (this session's CSV appends) followed by rows still queued. -/
def eventNames (st : LoopState) : List String :=
  (st.log ++ st.queue).map AttendanceRow.name

/-- The marking invariant: the names of all events ever enqueued are
exactly the marked names (in reverse insertion order), with no duplicates. -/
def StateInv (st : LoopState) : Prop :=
  eventNames st = st.marked.reverse ∧ st.marked.Nodup

/-- A detection is newly accepted when its confidence passes the bound, it
resolves into the session's class, and its name is not yet marked. -/
def acceptsNew (cfg : Cfg) (ctx : RosterCtx) (st : LoopState) (d : Detection) : Prop :=
  d.confidence < cfg.threshold ∧ detBranch ctx d = ctx.branch ∧
    detSec ctx d = ctx.sec ∧ detName ctx d ∉ st.marked

/-- The state after a newly accepted detection is marked: one row appended
to the queue, the name added to the marked set, the cooldown stamped. -/
def markState (ctx : RosterCtx) (dateStr timeStr : String) (st : LoopState)
    (d : Detection) : LoopState :=
  { st with
    queue := st.queue ++
      [⟨detName ctx d, detRollNo ctx d, ctx.branch, ctx.sec, dateStr, timeStr⟩],
    marked := detName ctx d :: st.marked,
    cooldown := (detName ctx d, timeStr) :: st.cooldown }

/-- The state carried by a step result. -/
def stepState : StepRes → LoopState
  | .cont st => st
  | .halt st _ => st

/-! ### Concrete fixtures for witnesses and counterexamples -/

/-- A sample attendance row. -/
def rowA : AttendanceRow := ⟨"alice", "CSEA001", "CSE", "A", "2026-10-12", "09:00:00"⟩

/-- A second sample attendance row. -/
def rowB : AttendanceRow := ⟨"bob", "CSEA002", "CSE", "A", "2026-10-12", "09:00:05"⟩

/-- A directory record in class CSE-A. -/
def infoCseA : StudentInfo := ⟨some "alice", some "CSEA001", some "CSE", some "A"⟩

/-- A directory record in class ECE-B. -/
def infoEceB : StudentInfo := ⟨some "alice", some "ECEB001", some "ECE", some "B"⟩

/-- A session context for CSE-A whose one known identity is in CSE-A. -/
def ctxGood : RosterCtx := ⟨"CSE", "A", [(0, "alice")], [("alice", infoCseA)]⟩

/-- A session context for CSE-A whose one known identity is in ECE-B. -/
def ctxWrong : RosterCtx := ⟨"CSE", "A", [(0, "alice")], [("alice", infoEceB)]⟩

/-- A startup environment in which every prerequisite check passes but the
requested class CSE-A has zero roster members (the only dataset identity is
in ECE-B). -/
def envEmptyClass : StartupEnv :=
  ⟨["recognize_attendance.py", "CSE", "A"], true, true, true, true,
    ["alice"], [("alice", infoEceB)], true⟩

/-- An uneventful camera frame with the given faces. -/
def normalFrame (faces : List Detection) : FrameInput :=
  ⟨.normal, faces, false, "2026-10-12", "09:00:00"⟩

/-- Five frames with no faces and no quit key. -/
def fiveNormalFrames : List FrameInput := List.replicate 5 (normalFrame [])

/-- A frame on which an exception strikes. -/
def exnFrame : FrameInput := ⟨.exn, [], false, "2026-10-12", "09:00:00"⟩

/-- A state in which alice is already marked. -/
def markedAlice : LoopState := { initState with marked := ["alice"] }

/-! ## Helper lemmas -/

/-- The exception-free drain loop moves the whole queue, in order, to the
end of the log. -/
theorem drainAll_eq : ∀ (q log : List AttendanceRow), drainAll q log = ([], log ++ q)
  | [], log => by simp [drainAll]
  | r :: rest, log => by
    rw [drainAll, drainAll_eq rest (log ++ [r])]
    simp

/-- A drain whose `k`-th write raises appends the first `k` rows to the
log and leaves the rows after position `k` queued; the row at position `k`
is gone. -/
theorem drainUntil_spec : ∀ (k : Nat) (q log : List AttendanceRow), k < q.length →
    drainUntil k q log = (q.drop (k + 1), log ++ q.take k)
  | _, [], _, h => by simp at h
  | 0, r :: rest, log, _ => by simp [drainUntil]
  | k + 1, r :: rest, log, h => by
    rw [drainUntil, drainUntil_spec k rest (log ++ [r]) (by simpa using h)]
    simp

/-- Characterization of the state change of one detection: either it is
newly accepted and the state is the marked update, or the state is
untouched. -/
theorem processDetection_state (cfg : Cfg) (ctx : RosterCtx) (ds ts : String)
    (st : LoopState) (d : Detection) :
    (acceptsNew cfg ctx st d ∧
        (processDetection cfg ctx ds ts st d).1 = markState ctx ds ts st d) ∨
    (¬ acceptsNew cfg ctx st d ∧ (processDetection cfg ctx ds ts st d).1 = st) := by
  by_cases h1 : d.confidence < cfg.threshold
  · by_cases h2 : detBranch ctx d = ctx.branch ∧ detSec ctx d = ctx.sec
    · by_cases h3 : detName ctx d ∈ st.marked
      · right
        constructor
        · simp [acceptsNew, h3]
        · simp [processDetection, h1, h2, h3]
      · left
        constructor
        · exact ⟨h1, h2.1, h2.2, h3⟩
        · simp [processDetection, h1, h2, h3, markState]
    · right
      constructor
      · intro ha
        exact h2 ⟨ha.2.1, ha.2.2.1⟩
      · simp [processDetection, h1, h2]
  · right
    constructor
    · simp [acceptsNew, h1]
    · simp [processDetection, h1]

/-- One detection never touches the frame counter, the recognition-call
counter, the log, or the stored display results. -/
theorem processDetection_preserves (cfg : Cfg) (ctx : RosterCtx) (ds ts : String)
    (st : LoopState) (d : Detection) :
    (processDetection cfg ctx ds ts st d).1.frameCount = st.frameCount ∧
    (processDetection cfg ctx ds ts st d).1.recogCalls = st.recogCalls ∧
    (processDetection cfg ctx ds ts st d).1.log = st.log ∧
    (processDetection cfg ctx ds ts st d).1.lastResults = st.lastResults := by
  rcases processDetection_state cfg ctx ds ts st d with ⟨_, h⟩ | ⟨_, h⟩ <;>
    simp [h, markState]

/-- One detection preserves the marking invariant. -/
theorem processDetection_inv (cfg : Cfg) (ctx : RosterCtx) (ds ts : String)
    (st : LoopState) (d : Detection) (h : StateInv st) :
    StateInv (processDetection cfg ctx ds ts st d).1 := by
  rcases processDetection_state cfg ctx ds ts st d with ⟨ha, he⟩ | ⟨_, he⟩
  · rw [he]
    obtain ⟨h1, h2⟩ := h
    constructor
    · simp only [eventNames, markState, List.reverse_cons, ← List.append_assoc,
        List.map_append] at *
      simp [h1]
    · exact List.nodup_cons.mpr ⟨ha.2.2.2, h2⟩
  · rw [he]; exact h

/-- The face loop of one frame never touches the frame counter, the
recognition-call counter, the log, or the stored display results. -/
theorem processFaces_preserves (cfg : Cfg) (ctx : RosterCtx) (ds ts : String) :
    ∀ (faces : List Detection) (st : LoopState),
    (processFaces cfg ctx ds ts st faces).1.frameCount = st.frameCount ∧
    (processFaces cfg ctx ds ts st faces).1.recogCalls = st.recogCalls ∧
    (processFaces cfg ctx ds ts st faces).1.log = st.log ∧
    (processFaces cfg ctx ds ts st faces).1.lastResults = st.lastResults
  | [], st => by simp [processFaces]
  | d :: ds', st => by
    have h1 := processDetection_preserves cfg ctx ds ts st d
    have h2 := processFaces_preserves cfg ctx ds ts ds' (processDetection cfg ctx ds ts st d).1
    rw [processFaces]
    exact ⟨h2.1.trans h1.1, h2.2.1.trans h1.2.1, h2.2.2.1.trans h1.2.2.1,
      h2.2.2.2.trans h1.2.2.2⟩

/-- The face loop of one frame preserves the marking invariant. -/
theorem processFaces_inv (cfg : Cfg) (ctx : RosterCtx) (ds ts : String) :
    ∀ (faces : List Detection) (st : LoopState), StateInv st →
    StateInv (processFaces cfg ctx ds ts st faces).1
  | [], _, h => h
  | d :: ds', st, h => by
    rw [processFaces]
    exact processFaces_inv cfg ctx ds ts ds' _
      (processDetection_inv cfg ctx ds ts st d h)

/-- A successful batch write just moves the queue to the end of the log. -/
theorem applyBatchWrite_eq (st : LoopState) :
    applyBatchWrite st = { st with queue := [], log := st.log ++ st.queue } := by
  unfold applyBatchWrite batch_write_attendance
  by_cases h : st.queue.isEmpty
  · simp [h, List.isEmpty_iff.mp h]
  · simp [h, drainAll_eq]

/-- A successful batch write preserves the marking invariant. -/
theorem applyBatchWrite_inv (st : LoopState) (h : StateInv st) :
    StateInv (applyBatchWrite st) := by
  rw [applyBatchWrite_eq]
  obtain ⟨h1, h2⟩ := h
  exact ⟨by simpa [eventNames] using h1, h2⟩

/-- The frame-count bump preserves the marking invariant. -/
theorem bumpFrame_inv (st : LoopState) (h : StateInv st) : StateInv (bumpFrame st) :=
  ⟨by simpa [eventNames, bumpFrame] using h.1, h.2⟩

/-- The detection phase preserves the marking invariant. -/
theorem detectPhase_inv (cfg : Cfg) (ctx : RosterCtx) (f : FrameInput) (st1 : LoopState)
    (h : StateInv st1) : StateInv (detectPhase cfg ctx f st1) := by
  unfold detectPhase
  by_cases hp : st1.frameCount % cfg.processEveryN == 0
  · simp only [hp, if_true]
    have h2 := processFaces_inv cfg ctx f.dateStr f.timeStr f.faces st1 h
    exact ⟨by simpa [eventNames] using h2.1, h2.2⟩
  · simpa [hp] using h

/-- The periodic-write phase preserves the marking invariant. -/
theorem writePhase_inv (cfg : Cfg) (st2 : LoopState) (h : StateInv st2) :
    StateInv (writePhase cfg st2) := by
  unfold writePhase
  by_cases hw : st2.frameCount % cfg.batchWriteInterval == 0 && !st2.queue.isEmpty
  · simpa [hw] using applyBatchWrite_inv st2 h
  · simpa [hw] using h

/-- One loop iteration preserves the marking invariant, whether it
continues or halts. -/
theorem stepFrame_inv (cfg : Cfg) (ctx : RosterCtx) (st : LoopState) (f : FrameInput)
    (h : StateInv st) : StateInv (stepState (stepFrame cfg ctx st f)) := by
  unfold stepFrame
  cases f.event with
  | camFail => exact h
  | kbInterrupt => exact h
  | exn => exact h
  | normal =>
    have h2 := detectPhase_inv cfg ctx f (bumpFrame st) (bumpFrame_inv st h)
    by_cases hq : f.quitKey
    · simpa [hq, stepState] using h2
    · simpa [hq, stepState] using writePhase_inv cfg _ h2

/-- The whole `try` loop preserves the marking invariant. -/
theorem runLoopAux_inv (cfg : Cfg) (ctx : RosterCtx) :
    ∀ (inputs : List FrameInput) (st : LoopState), StateInv st →
    StateInv (runLoopAux cfg ctx inputs st).1
  | [], _, h => h
  | f :: fs, st, h => by
    have hstep := stepFrame_inv cfg ctx st f h
    rw [runLoopAux]
    cases hsf : stepFrame cfg ctx st f with
    | cont st' =>
      rw [hsf] at hstep
      exact runLoopAux_inv cfg ctx fs st' hstep
    | halt st' c =>
      rw [hsf] at hstep
      exact hstep

/-- The `finally` block leaves the queue empty. -/
theorem finalizeSession_queue (st : LoopState) : (finalizeSession st).queue = [] := by
  unfold finalizeSession
  by_cases h : st.queue.isEmpty
  · simp [h, List.isEmpty_iff.mp h]
  · simp [h, applyBatchWrite_eq]

/-- The `finally` block moves the whole queue to the end of the log. -/
theorem finalizeSession_log (st : LoopState) :
    (finalizeSession st).log = st.log ++ st.queue := by
  unfold finalizeSession
  by_cases h : st.queue.isEmpty
  · simp [h, List.isEmpty_iff.mp h]
  · simp [h, applyBatchWrite_eq]

/-- The `finally` block preserves the marking invariant and the marked set. -/
theorem finalizeSession_inv (st : LoopState) (h : StateInv st) :
    StateInv (finalizeSession st) ∧ (finalizeSession st).marked = st.marked := by
  unfold finalizeSession
  by_cases hq : st.queue.isEmpty
  · simp [hq, h]
  · simp [hq, applyBatchWrite_eq]
    obtain ⟨h1, h2⟩ := h
    exact ⟨by simpa [eventNames] using h1, h2⟩

/-- The marking invariant holds at session start. -/
theorem initState_inv : StateInv initState := ⟨rfl, List.nodup_nil⟩

/-- A successful association-list lookup comes from a member of the list. -/
theorem lookupA_some_mem {l : List (String × StudentInfo)} {k : String} {v : StudentInfo}
    (h : lookupA l k = some v) : (k, v) ∈ l := by
  unfold lookupA at h
  cases hf : l.find? (fun p => p.1 == k) with
  | none => rw [hf] at h; simp at h
  | some p =>
    rw [hf] at h
    simp at h
    have hm := List.mem_of_find?_eq_some hf
    have hp : p.1 = k := by simpa using List.find?_some hf
    rw [← h, ← hp]
    simpa using hm

/-- The detection phase does not touch the frame counter, and bumps the
recognition-call counter exactly on the sampled frames. -/
theorem detectPhase_counters (cfg : Cfg) (ctx : RosterCtx) (f : FrameInput) (st1 : LoopState) :
    (detectPhase cfg ctx f st1).frameCount = st1.frameCount ∧
    (detectPhase cfg ctx f st1).recogCalls = st1.recogCalls +
      (if st1.frameCount % cfg.processEveryN = 0 then 1 else 0) := by
  unfold detectPhase
  have hpf := processFaces_preserves cfg ctx f.dateStr f.timeStr f.faces st1
  by_cases hp : st1.frameCount % cfg.processEveryN = 0
  · simp [hp, hpf.1, hpf.2.1]
  · simp [hp]

/-- The detection phase either skips the frame or runs the face loop and
bumps the call counter. -/
theorem detectPhase_eq (cfg : Cfg) (ctx : RosterCtx) (f : FrameInput) (st1 : LoopState) :
    detectPhase cfg ctx f st1 = st1 ∨
    detectPhase cfg ctx f st1 =
      { (processFaces cfg ctx f.dateStr f.timeStr st1 f.faces).1 with
        recogCalls := (processFaces cfg ctx f.dateStr f.timeStr st1 f.faces).1.recogCalls + 1,
        lastResults := (processFaces cfg ctx f.dateStr f.timeStr st1 f.faces).2 } := by
  unfold detectPhase
  by_cases hp : st1.frameCount % cfg.processEveryN == 0
  · right
    rw [if_pos (by simpa using hp)]
  · left
    rw [if_neg (by simpa using hp)]

/-- The periodic-write phase touches neither counter. -/
theorem writePhase_counters (cfg : Cfg) (st2 : LoopState) :
    (writePhase cfg st2).frameCount = st2.frameCount ∧
    (writePhase cfg st2).recogCalls = st2.recogCalls := by
  unfold writePhase
  by_cases hw : st2.frameCount % cfg.batchWriteInterval == 0 && !st2.queue.isEmpty
  · simp [hw, applyBatchWrite_eq]
  · simp [hw]

/-- A normal frame with no quit key always continues, through the
bump/detect/write pipeline. -/
theorem stepFrame_normal (cfg : Cfg) (ctx : RosterCtx) (st : LoopState) (f : FrameInput)
    (he : f.event = .normal) (hq : f.quitKey = false) :
    stepFrame cfg ctx st f = .cont (writePhase cfg (detectPhase cfg ctx f (bumpFrame st))) := by
  unfold stepFrame
  rw [he]
  simp [hq]

/-- Counting invariant of the loop over normal frames: if the calls made
so far equal `frameCount / K`, that stays true, and each frame advances the
counter by one. -/
theorem runLoopAux_counting (cfg : Cfg) (ctx : RosterCtx) :
    ∀ (inputs : List FrameInput), (∀ f ∈ inputs, f.event = .normal ∧ f.quitKey = false) →
    ∀ st : LoopState, st.recogCalls = st.frameCount / cfg.processEveryN →
    (runLoopAux cfg ctx inputs st).1.recogCalls =
      (runLoopAux cfg ctx inputs st).1.frameCount / cfg.processEveryN ∧
    (runLoopAux cfg ctx inputs st).1.frameCount = st.frameCount + inputs.length
  | [], _, st, h => ⟨h, by simp [runLoopAux]⟩
  | f :: fs, hall, st, h => by
    have hf := hall f (List.mem_cons_self f fs)
    rw [runLoopAux, stepFrame_normal cfg ctx st f hf.1 hf.2]
    have hd := detectPhase_counters cfg ctx f (bumpFrame st)
    have hw := writePhase_counters cfg (detectPhase cfg ctx f (bumpFrame st))
    have hfc : (writePhase cfg (detectPhase cfg ctx f (bumpFrame st))).frameCount =
        st.frameCount + 1 := by rw [hw.1, hd.1]; rfl
    have hrc : (writePhase cfg (detectPhase cfg ctx f (bumpFrame st))).recogCalls =
        (st.frameCount + 1) / cfg.processEveryN := by
      rw [hw.2, hd.2]
      show st.recogCalls + (if (st.frameCount + 1) % cfg.processEveryN = 0 then 1 else 0) = _
      rw [h, Nat.succ_div]
      congr 1
      simp [Nat.dvd_iff_mod_eq_zero]
    have hrec := runLoopAux_counting cfg ctx fs
      (fun g hg => hall g (List.mem_cons_of_mem f hg))
      (writePhase cfg (detectPhase cfg ctx f (bumpFrame st))) (by rw [hrc, hfc])
    refine ⟨hrec.1, ?_⟩
    rw [hrec.2, hfc]
    simp only [List.length_cons]
    omega

/-- When the session's class has no roster members and the class context is
not the literal UNKNOWN placeholder, no detection can resolve into the
class. -/
theorem no_accept_of_empty_class (ctx : RosterCtx)
    (hempty : classStudents ctx.nameToInfo ctx.branch ctx.sec = [])
    (hb : ctx.branch ≠ "UNKNOWN") (hs : ctx.sec ≠ "UNKNOWN") (d : Detection) :
    ¬(detBranch ctx d = ctx.branch ∧ detSec ctx d = ctx.sec) := by
  rintro ⟨hB, hS⟩
  rw [detBranch] at hB
  rw [detSec] at hS
  cases hl : lookupA ctx.nameToInfo (detName ctx d) with
  | none =>
    rw [detInfo, hl] at hB
    exact hb hB.symm
  | some info =>
    rw [detInfo, hl] at hB hS
    simp only [Option.getD_some] at hB hS
    have hbr : info.branch = some ctx.branch := by
      cases hib : info.branch with
      | none => rw [hib] at hB; simp at hB; exact absurd hB.symm hb
      | some b => rw [hib] at hB; simp at hB; rw [hB]
    have hsc : info.sec = some ctx.sec := by
      cases his : info.sec with
      | none => rw [his] at hS; simp at hS; exact absurd hS.symm hs
      | some s => rw [his] at hS; simp at hS; rw [hS]
    have hmem := lookupA_some_mem hl
    have : (detName ctx d, info) ∈ classStudents ctx.nameToInfo ctx.branch ctx.sec := by
      rw [classStudents]
      refine List.mem_filter.mpr ⟨hmem, ?_⟩
      simp [hbr, hsc]
    rw [hempty] at this
    exact absurd this (List.not_mem_nil _)

/-- States with nothing accepted yet: empty queue, empty log, empty marked
set. -/
def Pristine (st : LoopState) : Prop :=
  st.queue = [] ∧ st.log = [] ∧ st.marked = []

/-- With no class member to accept, one detection leaves the state
untouched. -/
theorem processDetection_no_accept (cfg : Cfg) (ctx : RosterCtx) (ds ts : String)
    (st : LoopState) (d : Detection)
    (hno : ¬(detBranch ctx d = ctx.branch ∧ detSec ctx d = ctx.sec)) :
    (processDetection cfg ctx ds ts st d).1 = st := by
  rcases processDetection_state cfg ctx ds ts st d with ⟨ha, _⟩ | ⟨_, he⟩
  · exact absurd ⟨ha.2.1, ha.2.2.1⟩ hno
  · exact he

/-- With no class member to accept, a whole frame's face loop leaves the
state untouched. -/
theorem processFaces_no_accept (cfg : Cfg) (ctx : RosterCtx) (ds ts : String)
    (hno : ∀ d : Detection, ¬(detBranch ctx d = ctx.branch ∧ detSec ctx d = ctx.sec)) :
    ∀ (faces : List Detection) (st : LoopState),
    (processFaces cfg ctx ds ts st faces).1 = st
  | [], _ => rfl
  | d :: ds', st => by
    rw [processFaces, processDetection_no_accept cfg ctx ds ts st d (hno d)]
    exact processFaces_no_accept cfg ctx ds ts hno ds' st

/-- With no class member to accept, every loop iteration keeps the state
pristine. -/
theorem stepFrame_pristine (cfg : Cfg) (ctx : RosterCtx) (st : LoopState) (f : FrameInput)
    (hno : ∀ d : Detection, ¬(detBranch ctx d = ctx.branch ∧ detSec ctx d = ctx.sec))
    (h : Pristine st) : Pristine (stepState (stepFrame cfg ctx st f)) := by
  obtain ⟨h1, h2, h3⟩ := h
  unfold stepFrame
  cases f.event with
  | camFail => exact ⟨h1, h2, h3⟩
  | kbInterrupt => exact ⟨h1, h2, h3⟩
  | exn => exact ⟨h1, h2, h3⟩
  | normal =>
    have hpf := processFaces_no_accept cfg ctx f.dateStr f.timeStr hno f.faces (bumpFrame st)
    have hdet : Pristine (detectPhase cfg ctx f (bumpFrame st)) := by
      rcases detectPhase_eq cfg ctx f (bumpFrame st) with hd | hd <;> rw [hd]
      · exact ⟨h1, h2, h3⟩
      · exact ⟨by rw [hpf]; exact h1, by rw [hpf]; exact h2, by rw [hpf]; exact h3⟩
    have hwr : Pristine (writePhase cfg (detectPhase cfg ctx f (bumpFrame st))) := by
      unfold writePhase
      rw [hdet.1]
      simp only [List.isEmpty_nil, Bool.not_true, Bool.and_false, Bool.false_eq_true,
        if_false]
      exact hdet
    by_cases hq : f.quitKey
    · simpa [hq, stepState] using hdet
    · simpa [hq, stepState] using hwr

/-- With no class member to accept, the whole loop keeps the state
pristine. -/
theorem runLoopAux_pristine (cfg : Cfg) (ctx : RosterCtx)
    (hno : ∀ d : Detection, ¬(detBranch ctx d = ctx.branch ∧ detSec ctx d = ctx.sec)) :
    ∀ (inputs : List FrameInput) (st : LoopState), Pristine st →
    Pristine (runLoopAux cfg ctx inputs st).1
  | [], _, h => h
  | f :: fs, st, h => by
    have hstep := stepFrame_pristine cfg ctx st f hno h
    rw [runLoopAux]
    cases hsf : stepFrame cfg ctx st f with
    | cont st' =>
      rw [hsf] at hstep
      exact runLoopAux_pristine cfg ctx hno fs st' hstep
    | halt st' c =>
      rw [hsf] at hstep
      exact hstep

/-! ## Claim theorems -/

/-- C3: for every queue state, `flush()` appends all queued events to the
durable log exactly once, in FIFO enqueue order, and leaves the queue empty
afterwards; a flush of an empty queue performs no log write at all — the
file is not even opened, whatever failure mode the write path is in. -/
theorem flush_moves_queue_in_order (q log : List AttendanceRow) :
    (batch_write_attendance .ok q log).log = log ++ q ∧
    (batch_write_attendance .ok q log).queue = [] ∧
    ∀ m : FailMode, batch_write_attendance m [] log = ⟨[], log, 0⟩ := by
  refine ⟨?_, ?_, fun m => by simp [batch_write_attendance]⟩ <;>
  · cases q with
    | nil => simp [batch_write_attendance]
    | cons a t => simp [batch_write_attendance, drainAll_eq]

/-- C4 counterexample: a flush whose first row write fails opens the file
only once (no retry is attempted), and the event being written — `rowA`,
already popped from the deque — is neither retained in the queue nor
present in the log: it is silently lost apart from a printed message. -/
theorem flush_failure_loses_event :
    (batch_write_attendance (.writeFail 0) [rowA, rowB] []).opens = 1 ∧
    rowA ∉ (batch_write_attendance (.writeFail 0) [rowA, rowB] []).queue ∧
    rowA ∉ (batch_write_attendance (.writeFail 0) [rowA, rowB] []).log := by
  decide

/-- C4 (amended): when a flush fails, the failure is only surfaced as a
printed warning and the write is never retried (exactly one attempt is
made). If the log cannot even be opened, all queued events are retained for
the next flush; if the `k`-th row write fails, the rows before it are in
the log, the rows after it are retained in the queue, and the `k`-th row
itself is lost. -/
theorem flush_failure_no_retry (q log : List AttendanceRow) (k : Nat)
    (hq : q ≠ []) (hk : k < q.length) :
    batch_write_attendance .openFail q log = ⟨q, log, 1⟩ ∧
    batch_write_attendance (.writeFail k) q log =
      ⟨q.drop (k + 1), log ++ q.take k, 1⟩ := by
  have hne : q.isEmpty = false := by
    cases q with
    | nil => exact absurd rfl hq
    | cons a t => rfl
  constructor
  · simp [batch_write_attendance, hne]
  · simp [batch_write_attendance, hne, drainUntil_spec k q log hk]

/-- Witness for the amended C4 at a concrete two-row queue with the first
write failing. -/
theorem flush_failure_no_retry_witness :
    batch_write_attendance .openFail [rowA, rowB] [] = ⟨[rowA, rowB], [], 1⟩ ∧
    batch_write_attendance (.writeFail 0) [rowA, rowB] [] = ⟨[rowB], [], 1⟩ := by
  have h := flush_failure_no_retry [rowA, rowB] [] 0 (by decide) (by decide)
  simpa using h

/-- C5: a detection whose confidence passes the bound but whose resolved
branch or section differs from the session's class context is classified
`wrong_class` and changes nothing: the returned state is exactly the input
state (same queue, same marked set). -/
theorem wrong_class_never_marks (cfg : Cfg) (ctx : RosterCtx) (ds ts : String)
    (st : LoopState) (d : Detection)
    (hconf : d.confidence < cfg.threshold)
    (hmis : ¬(detBranch ctx d = ctx.branch ∧ detSec ctx d = ctx.sec)) :
    (processDetection cfg ctx ds ts st d).1 = st ∧
    (processDetection cfg ctx ds ts st d).2.status = .wrong_class := by
  constructor <;> simp [processDetection, hconf, hmis]

/-- Witness for C5: alice, enrolled in ECE-B, seen with strong confidence
during a CSE-A session. -/
theorem wrong_class_never_marks_witness :
    (processDetection sourceConfig ctxWrong "2026-10-12" "09:00:00" initState ⟨0, 50⟩).1 =
      initState ∧
    (processDetection sourceConfig ctxWrong "2026-10-12" "09:00:00" initState ⟨0, 50⟩).2.status =
      .wrong_class :=
  wrong_class_never_marks sourceConfig ctxWrong "2026-10-12" "09:00:00" initState ⟨0, 50⟩
    (by norm_num [sourceConfig]) (by decide)

/-- C6: a detection whose confidence fails the acceptance bound is
classified `unknown` — whatever label the recognizer predicted — and
changes nothing: the returned state is exactly the input state. -/
theorem low_confidence_is_unknown (cfg : Cfg) (ctx : RosterCtx) (ds ts : String)
    (st : LoopState) (d : Detection)
    (hconf : cfg.threshold ≤ d.confidence) :
    (processDetection cfg ctx ds ts st d).1 = st ∧
    (processDetection cfg ctx ds ts st d).2.status = .unknown ∧
    (processDetection cfg ctx ds ts st d).2.name = "Unknown" := by
  have h : ¬ d.confidence < cfg.threshold := not_lt.mpr hconf
  refine ⟨?_, ?_, ?_⟩ <;> simp [processDetection, h]

/-- Witness for C6: a weak-confidence detection of a label that would
otherwise resolve to a correctly enrolled student. -/
theorem low_confidence_is_unknown_witness :
    (processDetection sourceConfig ctxGood "2026-10-12" "09:00:00" initState ⟨0, 80⟩).1 =
      initState ∧
    (processDetection sourceConfig ctxGood "2026-10-12" "09:00:00" initState ⟨0, 80⟩).2.status =
      .unknown ∧
    (processDetection sourceConfig ctxGood "2026-10-12" "09:00:00" initState ⟨0, 80⟩).2.name =
      "Unknown" :=
  low_confidence_is_unknown sourceConfig ctxGood "2026-10-12" "09:00:00" initState ⟨0, 80⟩
    (by norm_num [sourceConfig])

/-- C7: roster resolution is total and follows the order: exact match of
the derived directory key, then first case-insensitive name match, then the
unknown placeholder `{rollNo: "N/A", branch: "UNKNOWN", section: "UNKNOWN"}`;
no label can fail to resolve. -/
theorem resolveStudent_total (db : List (String × StudentInfo)) (label : String) :
    resolveStudent db label =
      ((lookupKey db (derivedKey label)).getD ((findByName db label).getD unknownInfo)) ∧
    unknownInfo = ⟨none, some "N/A", some "UNKNOWN", some "UNKNOWN"⟩ := by
  refine ⟨?_, rfl⟩
  unfold resolveStudent
  cases lookupKey db (derivedKey label) <;> cases findByName db label <;> rfl

/-- C1: over any session, every identity label yields at most one
attendance event — the names of all rows ever handed to the writer are
pairwise distinct. A newly accepted detection enqueues exactly one event
and adds its label to the marked set; a later accepted detection of an
already-marked label is an idempotent no-op, returning the state
unchanged. -/
theorem at_most_one_event_per_label (cfg : Cfg) (ctx : RosterCtx)
    (inputs : List FrameInput) (st : LoopState) (d : Detection) (ds ts : String) :
    (((runSession cfg ctx inputs).1.log ++ (runSession cfg ctx inputs).1.queue).map
        AttendanceRow.name).Nodup ∧
    (acceptsNew cfg ctx st d →
      (processDetection cfg ctx ds ts st d).1 = markState ctx ds ts st d) ∧
    (d.confidence < cfg.threshold → detBranch ctx d = ctx.branch →
      detSec ctx d = ctx.sec → detName ctx d ∈ st.marked →
      (processDetection cfg ctx ds ts st d).1 = st) := by
  refine ⟨?_, ?_, ?_⟩
  · have hloop := runLoopAux_inv cfg ctx inputs initState initState_inv
    have hfin := (finalizeSession_inv _ hloop).1
    have h1 : eventNames (runSession cfg ctx inputs).1 =
        (runSession cfg ctx inputs).1.marked.reverse := by
      simpa [runSession] using hfin.1
    have h2 : (runSession cfg ctx inputs).1.marked.Nodup := by
      simpa [runSession] using hfin.2
    rw [show (((runSession cfg ctx inputs).1.log ++ (runSession cfg ctx inputs).1.queue).map
        AttendanceRow.name) = eventNames (runSession cfg ctx inputs).1 from rfl, h1]
    exact List.nodup_reverse.mpr h2
  · intro ha
    rcases processDetection_state cfg ctx ds ts st d with ⟨_, he⟩ | ⟨hna, _⟩
    · exact he
    · exact absurd ha hna
  · intro h1 h2 h3 h4
    rcases processDetection_state cfg ctx ds ts st d with ⟨ha, _⟩ | ⟨_, he⟩
    · exact absurd h4 ha.2.2.2
    · exact he

/-- Witness for C1: during a CSE-A session, alice is accepted once — her
row is enqueued and she is marked — and a second accepted detection of
alice leaves the state exactly as it was. -/
theorem at_most_one_event_per_label_witness :
    (processDetection sourceConfig ctxGood "2026-10-12" "09:00:00" initState ⟨0, 50⟩).1 =
      markState ctxGood "2026-10-12" "09:00:00" initState ⟨0, 50⟩ ∧
    (processDetection sourceConfig ctxGood "2026-10-12" "09:00:00" markedAlice ⟨0, 50⟩).1 =
      markedAlice := by
  constructor
  · exact (at_most_one_event_per_label sourceConfig ctxGood [] initState ⟨0, 50⟩
      "2026-10-12" "09:00:00").2.1 ⟨by norm_num [sourceConfig], by decide, by decide, by decide⟩
  · exact (at_most_one_event_per_label sourceConfig ctxGood [] markedAlice ⟨0, 50⟩
      "2026-10-12" "09:00:00").2.2 (by norm_num [sourceConfig]) (by decide) (by decide)
      (by decide)

/-- C10: at every reachable point of a session, the number of events ever
enqueued (rows written to the log plus rows still queued) equals the size
of the duplicate-free marked set; after the final flush the rows written
equal the present count reported by the summary
(`len(marked_names)`). -/
theorem event_count_equals_marked_count (cfg : Cfg) (ctx : RosterCtx)
    (inputs : List FrameInput) :
    (runLoopAux cfg ctx inputs initState).1.log.length +
      (runLoopAux cfg ctx inputs initState).1.queue.length =
      (runLoopAux cfg ctx inputs initState).1.marked.length ∧
    (runLoopAux cfg ctx inputs initState).1.marked.Nodup ∧
    (runSession cfg ctx inputs).1.log.length =
      (runSession cfg ctx inputs).1.marked.length := by
  have hloop := runLoopAux_inv cfg ctx inputs initState initState_inv
  refine ⟨?_, hloop.2, ?_⟩
  · have := congrArg List.length hloop.1
    simpa [eventNames] using this
  · have hfin := (finalizeSession_inv _ hloop).1
    have := congrArg List.length hfin.1
    simp only [eventNames, List.length_map, List.length_append, List.length_reverse] at this
    have hq := finalizeSession_queue (runLoopAux cfg ctx inputs initState).1
    rw [hq] at this
    simp only [List.length_nil, Nat.add_zero] at this
    simpa [runSession] using this

/-- C9: whatever cause ends the controller loop — end of stream, camera
read failure, the quit key, a `KeyboardInterrupt`, or any other exception —
the `finally` block flushes the whole pending queue into the log before the
session reports completion, so the finalized state never retains queued
events. -/
theorem final_flush_on_every_exit (cfg : Cfg) (ctx : RosterCtx)
    (inputs : List FrameInput) (st : LoopState) (c : ExitCause)
    (h : runLoopAux cfg ctx inputs initState = (st, c)) :
    (finalizeSession st).queue = [] ∧
    (finalizeSession st).log = st.log ++ st.queue ∧
    (runSession cfg ctx inputs).1 = finalizeSession st ∧
    (runSession cfg ctx inputs).2 = c := by
  refine ⟨finalizeSession_queue st, finalizeSession_log st, ?_, ?_⟩ <;>
    simp [runSession, h]

/-- Witness for C9 at a session ended by an exception. -/
theorem final_flush_on_every_exit_witness :
    (finalizeSession initState).queue = [] ∧
    (finalizeSession initState).log = initState.log ++ initState.queue ∧
    (runSession sourceConfig ctxGood [exnFrame]).1 = finalizeSession initState ∧
    (runSession sourceConfig ctxGood [exnFrame]).2 = .errored :=
  final_flush_on_every_exit sourceConfig ctxGood [exnFrame] initState .errored rfl

/-- C8: over a frame source that yields exactly `T` ordinary frames (no
camera failure, no quit, no interrupt), with sampling interval `K > 0`, the
recognition capability is invoked on exactly `⌊T / K⌋` frames. -/
theorem recognition_on_every_kth_frame (cfg : Cfg) (ctx : RosterCtx)
    (inputs : List FrameInput) (_hK : 0 < cfg.processEveryN)
    (hall : ∀ f ∈ inputs, f.event = .normal ∧ f.quitKey = false) :
    (runLoopAux cfg ctx inputs initState).1.recogCalls =
      inputs.length / cfg.processEveryN := by
  have h := runLoopAux_counting cfg ctx inputs hall initState (by simp [initState])
  rw [h.1, h.2]
  simp [initState]

/-- Witness for C8: five ordinary frames at the source's interval of 2
produce exactly 2 recognition calls. -/
theorem recognition_on_every_kth_frame_witness :
    (runLoopAux sourceConfig ctxGood fiveNormalFrames initState).1.recogCalls =
      fiveNormalFrames.length / sourceConfig.processEveryN :=
  recognition_on_every_kth_frame sourceConfig ctxGood fiveNormalFrames (by decide)
    (by decide)

/-- C2 counterexample: with every environment prerequisite satisfied but a
roster containing zero members of the requested class CSE-A, startup does
not fail — it returns `running` (with only a warning flag) instead of
refusing the session, contradicting the claimed ConfigurationError. -/
theorem empty_class_still_runs :
    classStudents (buildNameToInfo envEmptyClass.datasetFolders envEmptyClass.studentDb)
        "CSE" "A" = [] ∧
    startup envEmptyClass =
      .running ⟨"CSE", "A", [(0, "alice")], [("alice", infoEceB)]⟩ true := by
  constructor
  · rfl
  · rfl

/-- C2 (amended): starting a session for a class context with zero roster
members does not fail: when every other startup check passes, the script
reaches the recognition loop with only a warning flag set. However, as long
as the class context is not the literal UNKNOWN placeholder, such a session
can never produce an attendance event: log, queue and marked set stay empty
on every input stream. -/
theorem empty_class_warns_and_marks_nothing (env : StartupEnv) (cfg : Cfg)
    (ctx : RosterCtx) (inputs : List FrameInput)
    (hargs : 3 ≤ env.argv.length) (hm : env.modelFileExists = true)
    (hl : env.modelLoadOk = true) (hc : env.cascadeOk = true)
    (hd : env.datasetExists = true) (hcam : env.camOpens = true)
    (hempty : classStudents ctx.nameToInfo ctx.branch ctx.sec = [])
    (hb : ctx.branch ≠ "UNKNOWN") (hs : ctx.sec ≠ "UNKNOWN") :
    startup env = .running
      ⟨pyUpper (env.argv.getD 1 ""), pyUpper (env.argv.getD 2 ""),
        buildLabelMap env.datasetFolders,
        buildNameToInfo env.datasetFolders env.studentDb⟩
      ((classStudents (buildNameToInfo env.datasetFolders env.studentDb)
          (pyUpper (env.argv.getD 1 "")) (pyUpper (env.argv.getD 2 ""))).isEmpty) ∧
    (runSession cfg ctx inputs).1.log = [] ∧
    (runSession cfg ctx inputs).1.queue = [] ∧
    (runSession cfg ctx inputs).1.marked = [] := by
  have hno := no_accept_of_empty_class ctx hempty hb hs
  have hpr : Pristine (runLoopAux cfg ctx inputs initState).1 :=
    runLoopAux_pristine cfg ctx hno inputs initState ⟨rfl, rfl, rfl⟩
  have hfin : finalizeSession (runLoopAux cfg ctx inputs initState).1 =
      (runLoopAux cfg ctx inputs initState).1 := by
    unfold finalizeSession
    rw [hpr.1]
    rfl
  refine ⟨?_, ?_, ?_, ?_⟩
  · unfold startup
    rw [if_neg (by omega)]
    simp [hm, hl, hc, hd, hcam]
  · simp only [runSession]
    rw [hfin]
    exact hpr.2.1
  · simp only [runSession]
    rw [hfin]
    exact hpr.1
  · simp only [runSession]
    rw [hfin]
    exact hpr.2.2

/-- Witness for the amended C2: the concrete empty-class environment, a
session context for CSE-A with only an ECE-B student, and one frame on
which that student is detected with strong confidence — still no event. -/
theorem empty_class_warns_and_marks_nothing_witness :
    startup envEmptyClass = .running
      ⟨pyUpper "CSE", pyUpper "A", buildLabelMap envEmptyClass.datasetFolders,
        buildNameToInfo envEmptyClass.datasetFolders envEmptyClass.studentDb⟩
      ((classStudents (buildNameToInfo envEmptyClass.datasetFolders envEmptyClass.studentDb)
          (pyUpper "CSE") (pyUpper "A")).isEmpty) ∧
    (runSession sourceConfig ctxWrong [normalFrame [⟨0, 50⟩]]).1.log = [] ∧
    (runSession sourceConfig ctxWrong [normalFrame [⟨0, 50⟩]]).1.queue = [] ∧
    (runSession sourceConfig ctxWrong [normalFrame [⟨0, 50⟩]]).1.marked = [] :=
  empty_class_warns_and_marks_nothing envEmptyClass sourceConfig ctxWrong
    [normalFrame [⟨0, 50⟩]] (by decide) rfl rfl rfl rfl rfl (by decide) (by decide)
    (by decide)

end Attendance
